import Mathlib

/-!
Verification of the Scan Readiness and Live Verification subsystem of the
QR Code Studio application.

The definitions below are a shallow embedding of the relevant TypeScript
source (the application module containing clampHex, hexToRgb,
channelToLinear, relativeLuminance, contrastRatio, the readiness useMemo
block, and the ScanPreviewModal component).  Numbers are modelled exactly:
channel values as Nat, luminances as real numbers (the sRGB gamma uses a
real power 2.4), slider quantities (viewing distance, print width) as
rationals.  JavaScript toFixed(2) followed by Number(...) is modelled as
rounding to the nearest multiple of 1/100, and Math.round as rounding to
the nearest integer.
-/

namespace QRStudio

/-! ### Hex color parsing

Source functions clampHex and hexToRgb.  clampHex expands a string that
starts with the hash sign and has length 4 by doubling each of its three
digit characters; every other string passes through unchanged.  hexToRgb
clamps and then matches the anchored regex: hash sign followed by exactly
six characters of the class 0-9 a-f A-F; on a match the three two-digit
slices are parsed with radix 16, otherwise the result is null.

Strings are modelled through their character lists: a string starts with
the hash sign and has length 4 exactly when its character list has the
shape hash, r, g, b.
-/

structure RGB where
  r : Nat
  g : Nat
  b : Nat
deriving DecidableEq, Repr

/-- One character of the regex class [0-9a-fA-F]. -/
def isHexDigitChar (c : Char) : Bool :=
  (('0' ≤ c && c ≤ '9') || ('a' ≤ c && c ≤ 'f') || ('A' ≤ c && c ≤ 'F'))

/-- Value of a hex digit, as produced by parseInt with radix 16. -/
def hexDigitVal (c : Char) : Nat :=
  if '0' ≤ c && c ≤ '9' then c.toNat - '0'.toNat
  else if 'a' ≤ c && c ≤ 'f' then c.toNat - 'a'.toNat + 10
  else if 'A' ≤ c && c ≤ 'F' then c.toNat - 'A'.toNat + 10
  else 0

/-- clampHex on the character list of the input string: the length test
is the shape of the match, the startsWith test is the head comparison. -/
def clampHexL (cs : List Char) : List Char :=
  match cs with
  | [h, r, g, b] => if h == '#' then ['#', r, r, g, g, b, b] else cs
  | _ => cs

/-- clampHex: a 4-character string starting with the hash character is
expanded by doubling each of its three digits; any other string is
returned unchanged. -/
def clampHex (hex : String) : String :=
  String.mk (clampHexL hex.toList)

/-- hexToRgb on the character list of the input string: after clamping,
the list must match the anchored regex (hash followed by exactly six hex
digits); otherwise the parse fails with none (the InvalidColorFormat
case). -/
def hexToRgbL (cs : List Char) : Option RGB :=
  match clampHexL cs with
  | [h, c1, c2, c3, c4, c5, c6] =>
      if h == '#' && isHexDigitChar c1 && isHexDigitChar c2 &&
         isHexDigitChar c3 && isHexDigitChar c4 && isHexDigitChar c5 &&
         isHexDigitChar c6 then
        some ⟨hexDigitVal c1 * 16 + hexDigitVal c2,
              hexDigitVal c3 * 16 + hexDigitVal c4,
              hexDigitVal c5 * 16 + hexDigitVal c6⟩
      else none
  | _ => none

def hexToRgb (hex : String) : Option RGB :=
  hexToRgbL hex.toList

/-! Spec-side predicates, used to state the parsing claims: a 3-digit hex
code (hash plus three hex digits), a 6-digit hex code (hash plus six hex
digits), and the digit-doubling expansion described by the spec. -/

def isHex3L (cs : List Char) : Bool :=
  match cs with
  | [h, a, b, c] =>
      h == '#' && isHexDigitChar a && isHexDigitChar b && isHexDigitChar c
  | _ => false

def isHex6L (cs : List Char) : Bool :=
  match cs with
  | [h, c1, c2, c3, c4, c5, c6] =>
      h == '#' && isHexDigitChar c1 && isHexDigitChar c2 &&
      isHexDigitChar c3 && isHexDigitChar c4 && isHexDigitChar c5 &&
      isHexDigitChar c6
  | _ => false

def isHex3 (s : String) : Bool := isHex3L s.toList

def isHex6 (s : String) : Bool := isHex6L s.toList

/-- Spec-side expansion of a 3-digit code by doubling each digit. -/
def expand3 (s : String) : String :=
  match s.toList with
  | [h, a, b, c] => if h == '#' then String.mk ['#', a, a, b, b, c, c] else s
  | _ => s

/-! ### Luminance and contrast

Source functions channelToLinear, relativeLuminance, contrastRatio.  The
gamma branch uses the real power with exponent 2.4, so these live over the
real numbers. -/

/-- channelToLinear: srgb below the threshold is divided by 12.92,
otherwise the gamma power is applied. -/
noncomputable def channelToLinear (channel : Nat) : ℝ :=
  let srgb : ℝ := (channel : ℝ) / 255
  if srgb ≤ 0.03928 then srgb / 12.92
  else ((srgb + 0.055) / 1.055) ^ (2.4 : ℝ)

/-- relativeLuminance: a color that fails hexToRgb contributes luminance
0 (the null branch of the source returns 0); otherwise the weighted sum
of the linearized channels. -/
noncomputable def relativeLuminance (hexColor : String) : ℝ :=
  match hexToRgb hexColor with
  | none => 0
  | some rgb =>
      0.2126 * channelToLinear rgb.r + 0.7152 * channelToLinear rgb.g +
        0.0722 * channelToLinear rgb.b

/-- contrastRatio: the lighter luminance plus 0.05 over the darker plus
0.05 (the source orders the pair with the comparison l1 greater than l2). -/
noncomputable def contrastRatio (l1 l2 : ℝ) : ℝ :=
  if l2 < l1 then (l1 + 0.05) / (l2 + 0.05) else (l2 + 0.05) / (l1 + 0.05)

/-! ### Readiness assessment

Source: the readiness useMemo block of the App component, together with
the constant DEFAULT_TRANSPARENT_BG and the isReady flag of the
ScanReadinessCard component (isReady = warnings.length === 0). -/

/-- Style inputs the readiness block reads: the foreground color (the
source applies a null-coalescing default of the black hex code) and the
raw background color, which may be the sentinel string. -/
structure StyleConfig where
  fgColor : Option String
  bgColor : String

def DEFAULT_TRANSPARENT_BG : String := "#0f172a"

/-- Resolution of the transparent sentinel to the fixed substrate color. -/
def resolvedBg (cfg : StyleConfig) : String :=
  if cfg.bgColor = "transparent" then DEFAULT_TRANSPARENT_BG else cfg.bgColor

/-- The foreground color after the null-coalescing default. -/
def fgColorOf (cfg : StyleConfig) : String :=
  cfg.fgColor.getD "#000000"

noncomputable def fgLum (cfg : StyleConfig) : ℝ :=
  relativeLuminance (fgColorOf cfg)

noncomputable def bgLum (cfg : StyleConfig) : ℝ :=
  relativeLuminance (resolvedBg cfg)

noncomputable def lumDiff (cfg : StyleConfig) : ℝ :=
  |fgLum cfg - bgLum cfg|

/-- Math.max of the two luminances and the guard constant 0.0001. -/
noncomputable def maxLum (cfg : StyleConfig) : ℝ :=
  max (fgLum cfg) (max (bgLum cfg) 0.0001)

open Classical in
/-- relativeDiff: the source guards division by a zero maximum even
though the guard constant already makes the maximum positive. -/
noncomputable def relativeDiff (cfg : StyleConfig) : ℝ :=
  if maxLum cfg = 0 then 0 else lumDiff cfg / maxLum cfg

/-- contrastPercent = Math.round(relativeDiff * 100). -/
noncomputable def contrastPercent (cfg : StyleConfig) : ℤ :=
  round (relativeDiff cfg * 100)

/-- meetsContrast = relativeDiff at least 0.4. -/
def MeetsContrast (cfg : StyleConfig) : Prop :=
  0.4 ≤ relativeDiff cfg

/-- isInverted = foreground luminance strictly above background. -/
def IsInverted (cfg : StyleConfig) : Prop :=
  bgLum cfg < fgLum cfg

/-- Number(x.toFixed(2)): rounding to the nearest multiple of 1/100. -/
def toFixed2 (q : ℚ) : ℚ :=
  (round (q * 100) : ℤ) / 100

/-- Real-valued variant of toFixed2, for the rounded contrast ratio of
the metrics record. -/
noncomputable def toFixed2R (x : ℝ) : ℝ :=
  ((round (x * 100) : ℤ) : ℝ) / 100

/-- recommendedPrintWidthIn = Number(((scanDistanceFt * 12) / 10).toFixed(2)). -/
def recommendedPrintWidthIn (scanDistanceFt : ℚ) : ℚ :=
  toFixed2 (scanDistanceFt * 12 / 10)

/-- maxDistanceFt = Number(((printSizeIn / 12) * 10).toFixed(2)). -/
def maxDistanceFt (printSizeIn : ℚ) : ℚ :=
  toFixed2 (printSizeIn / 12 * 10)

/-- sizeOk = printSizeIn at least the recommended width, or exactly 0. -/
def SizeOk (scanDistanceFt printSizeIn : ℚ) : Prop :=
  recommendedPrintWidthIn scanDistanceFt ≤ printSizeIn ∨ printSizeIn = 0

/-- recommendedPixelSize = Math.max(256, Math.round(printSizeIn * 300)). -/
def recommendedPixelSize (printSizeIn : ℚ) : ℤ :=
  max 256 (round (printSizeIn * 300))

/-- The closed set of warning identifiers. -/
inductive WarningId
  | contrast
  | inverted
  | size
  | transparentBg
deriving DecidableEq, Repr

open Classical in
/-- The warning list of the readiness block, in insertion order.  The
display message attached to each warning is presentation-only and is not
modelled; each push is represented by its identifier. -/
noncomputable def readinessWarnings (cfg : StyleConfig)
    (scanDistanceFt printSizeIn : ℚ) : List WarningId :=
  (if ¬ MeetsContrast cfg then [WarningId.contrast] else [])
    ++ (if IsInverted cfg then [WarningId.inverted] else [])
    ++ (if ¬ SizeOk scanDistanceFt printSizeIn ∧ 0 < printSizeIn then
          [WarningId.size] else [])
    ++ (if cfg.bgColor = "transparent" then [WarningId.transparentBg] else [])

/-- The rounded contrast ratio stored in the metrics record. -/
noncomputable def metricsContrastRatio (cfg : StyleConfig) : ℝ :=
  toFixed2R (contrastRatio (fgLum cfg) (bgLum cfg))

/-- The Ready verdict of the ScanReadinessCard: warnings.length === 0. -/
noncomputable def isReady (cfg : StyleConfig)
    (scanDistanceFt printSizeIn : ℚ) : Prop :=
  (readinessWarnings cfg scanDistanceFt printSizeIn).length = 0

/-! ### Scan verification controller

Source: the ScanPreviewModal component.  The controller is modelled as a
state machine driven by discrete events, following the shape of the
source: the effect body on open (camera granted or denied), the frame
callback tick, and the close or cleanup path.  A scheduled animation
frame is the pending flag; the camera stream is the count of its live
tracks; every call of the external decoder increments attempts; an
exception that escapes the frame callback sets uncaught. -/

inductive ScanStatus
  | idle
  | scanning
  | success
  | error
  | noPermission
deriving DecidableEq, Repr

/-- Status update of the source tick once the decoder has run on a ready
frame: a decoded payload is compared by plain string equality against the
trimmed expected data; with no code in the frame the status is set to
scanning whenever it differs from scanning. -/
def tickStatus (status : ScanStatus) (expectedData : String)
    (code : Option String) : ScanStatus :=
  match code with
  | some payload =>
      if payload = expectedData.trim then ScanStatus.success
      else ScanStatus.error
  | none =>
      if status ≠ ScanStatus.scanning then ScanStatus.scanning else status

/-- Outcome of one call of the external pixel decoder: it returned a
payload, it returned null, or it threw. -/
inductive DecodeOutcome
  | found (payload : String)
  | noCode
  | threw
deriving DecidableEq, Repr

structure ScanSession where
  status : ScanStatus
  scannedData : String
  tracks : Nat
  pending : Bool
  attempts : Nat
  uncaught : Bool
deriving DecidableEq, Repr

/-- Effect body when the view opens and getUserMedia resolves with a
stream of n tracks: status was reset to idle, the stream is attached and
the first frame callback is scheduled. -/
def openGranted (n : Nat) : ScanSession :=
  { status := ScanStatus.idle, scannedData := "", tracks := n,
    pending := true, attempts := 0, uncaught := false }

/-- Effect body when the view opens and getUserMedia rejects: the catch
branch sets status to noPermission and never schedules the loop. -/
def openDenied : ScanSession :=
  { status := ScanStatus.noPermission, scannedData := "", tracks := 0,
    pending := false, attempts := 0, uncaught := false }

/-- One animation-frame step.  A callback only runs while one is
scheduled (pending).  When the video element does not yet report a ready
frame, the source skips the decode and just reschedules.  Otherwise the
decoder runs once: the source has no try-catch around the decoder call,
so a throw aborts the callback before the status update and before the
requestAnimationFrame line, leaving no frame scheduled and an uncaught
exception; a normal return updates scannedData and the status and
reschedules. -/
def tick (s : ScanSession) (expectedData : String) (frameReady : Bool)
    (outcome : DecodeOutcome) : ScanSession :=
  if s.pending = false then s
  else if frameReady = false then { s with pending := true }
  else
    match outcome with
    | DecodeOutcome.threw =>
        { s with attempts := s.attempts + 1, pending := false,
                 uncaught := true }
    | DecodeOutcome.found payload =>
        { s with attempts := s.attempts + 1, pending := true,
                 scannedData := payload,
                 status := tickStatus s.status expectedData (some payload) }
    | DecodeOutcome.noCode =>
        { s with attempts := s.attempts + 1, pending := true,
                 status := tickStatus s.status expectedData none }

structure FrameEvent where
  ready : Bool
  outcome : DecodeOutcome
deriving DecidableEq, Repr

/-- A sequence of frame events applied in order. -/
def runFrames (s : ScanSession) (expectedData : String)
    (evts : List FrameEvent) : ScanSession :=
  evts.foldl (fun st e => tick st expectedData e.ready e.outcome) s

/-- Close path of the effect (the else branch and the cleanup function
alike): every track of the stream is stopped and the pending animation
frame is cancelled. -/
def closeSession (s : ScanSession) : ScanSession :=
  { s with tracks := 0, pending := false }

/-- Result of the getUserMedia promise issued by the open-effect body. -/
inductive CameraResult
  | granted (tracks : Nat)
  | denied
deriving DecidableEq, Repr

/-- Synchronous prefix of the open-effect body, together with the
cleanup of the previous run that precedes it on a re-run: the cleanup
stops every attached track and cancels any pending frame, then the body
calls setStatus with idle and clears the scanned data and issues a new
getUserMedia request, whose settlement is a separate later step. -/
def openEffectStart (s : ScanSession) : ScanSession :=
  { closeSession s with status := ScanStatus.idle, scannedData := "" }

/-- Settlement of the camera promise: the then-branch attaches the
stream and schedules the first frame callback, with no guard on whether
the view is still open; the catch-branch sets the status to
noPermission. -/
def settleCamera (s : ScanSession) (res : CameraResult) : ScanSession :=
  match res with
  | CameraResult.granted n => { s with tracks := n, pending := true }
  | CameraResult.denied => { s with status := ScanStatus.noPermission }

/-- The tick callback lists the status among its useCallback
dependencies, and the camera effect lists tick among its useEffect
dependencies; hence the effect re-runs, cleanup then body, whenever the
current status differs from the status captured at its last run, even
while the view stays open. -/
def EffectReruns (statusAtLastRun currentStatus : ScanStatus) : Prop :=
  currentStatus ≠ statusAtLastRun

/-- A session in which the view has just opened and the camera promise
has not settled: the body prefix has run and nothing is attached yet. -/
def openPending : ScanSession :=
  { status := ScanStatus.idle, scannedData := "", tracks := 0,
    pending := false, attempts := 0, uncaught := false }

/-- The default style of the application: black modules on a white
background. -/
def blackOnWhite : StyleConfig :=
  ⟨some "#000000", "#FFFFFF"⟩

/-- A configuration whose foreground string parses as no color at all. -/
def malformedOnWhite : StyleConfig :=
  ⟨some "oops", "#FFFFFF"⟩

/-- A session in the middle of a successful verification, used as a
concrete sample state. -/
def sampleSuccessSession : ScanSession :=
  { status := ScanStatus.success, scannedData := "https://example.com",
    tracks := 1, pending := true, attempts := 3, uncaught := false }

/-! ### Helper lemmas -/

lemma hexToRgbL_seven (h c1 c2 c3 c4 c5 c6 : Char) :
    hexToRgbL [h, c1, c2, c3, c4, c5, c6] =
      (if h == '#' && isHexDigitChar c1 && isHexDigitChar c2 &&
          isHexDigitChar c3 && isHexDigitChar c4 && isHexDigitChar c5 &&
          isHexDigitChar c6 then
        some ⟨hexDigitVal c1 * 16 + hexDigitVal c2,
              hexDigitVal c3 * 16 + hexDigitVal c4,
              hexDigitVal c5 * 16 + hexDigitVal c6⟩
      else none) := rfl

lemma hexToRgbL_four_hash (b c d : Char) :
    hexToRgbL ['#', b, c, d] = hexToRgbL ['#', b, b, c, c, d, d] := rfl

lemma isHex3L_four (h a b c : Char) :
    isHex3L [h, a, b, c] =
      (h == '#' && isHexDigitChar a && isHexDigitChar b && isHexDigitChar c) :=
  rfl

lemma isHex6L_seven (h c1 c2 c3 c4 c5 c6 : Char) :
    isHex6L [h, c1, c2, c3, c4, c5, c6] =
      (h == '#' && isHexDigitChar c1 && isHexDigitChar c2 &&
       isHexDigitChar c3 && isHexDigitChar c4 && isHexDigitChar c5 &&
       isHexDigitChar c6) := rfl

lemma hexToRgbL_some_shape (cs : List Char) (r : RGB)
    (h : hexToRgbL cs = some r) :
    isHex3L cs = true ∨ isHex6L cs = true := by
  rcases cs with _ | ⟨a, _ | ⟨b, _ | ⟨c, _ | ⟨d, _ | ⟨e, _ | ⟨f, _ | ⟨g, _ | ⟨h8, t⟩⟩⟩⟩⟩⟩⟩⟩
  · exact absurd h (by simp [hexToRgbL, clampHexL])
  · exact absurd h (by simp [hexToRgbL, clampHexL])
  · exact absurd h (by simp [hexToRgbL, clampHexL])
  · exact absurd h (by simp [hexToRgbL, clampHexL])
  · by_cases ha : a = '#'
    · subst ha
      left
      rw [hexToRgbL_four_hash, hexToRgbL_seven] at h
      rw [isHex3L_four]
      by_cases hcond : ('#' == '#' && isHexDigitChar b && isHexDigitChar b &&
          isHexDigitChar c && isHexDigitChar c && isHexDigitChar d &&
          isHexDigitChar d) = true
      · simp only [Bool.and_eq_true, beq_self_eq_true] at hcond ⊢
        exact ⟨⟨⟨trivial, hcond.1.1.1.1.2⟩, hcond.1.1.2⟩, hcond.2⟩
      · rw [if_neg hcond] at h
        exact absurd h (by simp)
    · have ha2 : (a == '#') = false := by simp [ha]
      exact absurd h (by simp [hexToRgbL, clampHexL, ha2])
  · exact absurd h (by simp [hexToRgbL, clampHexL])
  · exact absurd h (by simp [hexToRgbL, clampHexL])
  · right
    rw [hexToRgbL_seven] at h
    rw [isHex6L_seven]
    by_cases hcond : (a == '#' && isHexDigitChar b && isHexDigitChar c &&
        isHexDigitChar d && isHexDigitChar e && isHexDigitChar f &&
        isHexDigitChar g) = true
    · exact hcond
    · rw [if_neg hcond] at h
      exact absurd h (by simp)
  · exact absurd h (by simp [hexToRgbL, clampHexL])

lemma hexToRgbL_none_of_not_hex (cs : List Char)
    (h : ¬ (isHex3L cs = true ∨ isHex6L cs = true)) : hexToRgbL cs = none := by
  cases hx : hexToRgbL cs with
  | none => rfl
  | some r => exact absurd (hexToRgbL_some_shape cs r hx) h

lemma isHex3L_shape (cs : List Char) (h : isHex3L cs = true) :
    ∃ a b c, cs = ['#', a, b, c] := by
  rcases cs with _ | ⟨a, _ | ⟨b, _ | ⟨c, _ | ⟨d, _ | ⟨e, t⟩⟩⟩⟩⟩
  · exact absurd h (by simp [isHex3L])
  · exact absurd h (by simp [isHex3L])
  · exact absurd h (by simp [isHex3L])
  · exact absurd h (by simp [isHex3L])
  · rw [isHex3L_four, Bool.and_eq_true, Bool.and_eq_true, Bool.and_eq_true] at h
    have ha : a = '#' := by
      have := h.1.1.1
      simpa using this
    exact ⟨b, c, d, by rw [ha]⟩
  · exact absurd h (by simp [isHex3L])

lemma hex3_expand (s : String) (h : isHex3 s = true) :
    hexToRgb s = hexToRgb (expand3 s) := by
  obtain ⟨a, b, c, hcs⟩ := isHex3L_shape s.toList h
  have he : expand3 s = String.mk ['#', a, a, b, b, c, c] := by
    simp only [expand3, hcs]
    simp
  rw [hexToRgb, hcs, hexToRgbL_four_hash, he]
  rfl

lemma relativeLuminance_of_none (s : String) (h : hexToRgb s = none) :
    relativeLuminance s = 0 := by
  simp [relativeLuminance, h]

lemma channelToLinear_zero : channelToLinear 0 = 0 := by
  simp only [channelToLinear]
  rw [if_pos (by norm_num)]
  norm_num

lemma channelToLinear_255 : channelToLinear 255 = 1 := by
  simp only [channelToLinear]
  rw [if_neg (by norm_num)]
  rw [show (((255 : Nat) : ℝ) / 255 + 0.055) / 1.055 = 1 by norm_num]
  exact Real.one_rpow _

lemma relativeLuminance_black : relativeLuminance "#000000" = 0 := by
  have h : hexToRgb "#000000" = some ⟨0, 0, 0⟩ := by decide
  simp [relativeLuminance, h, channelToLinear_zero]

lemma relativeLuminance_white : relativeLuminance "#FFFFFF" = 1 := by
  have h : hexToRgb "#FFFFFF" = some ⟨255, 255, 255⟩ := by decide
  simp [relativeLuminance, h, channelToLinear_255]
  norm_num

lemma fgLum_bw : fgLum blackOnWhite = 0 := by
  simp [fgLum, fgColorOf, blackOnWhite, relativeLuminance_black]

lemma bgLum_bw : bgLum blackOnWhite = 1 := by
  have h : resolvedBg blackOnWhite = "#FFFFFF" := by
    simp [resolvedBg, blackOnWhite]
  simp [bgLum, h, relativeLuminance_white]

lemma fgLum_malformed : fgLum malformedOnWhite = 0 := by
  have h : hexToRgb "oops" = none := by decide
  simp [fgLum, fgColorOf, malformedOnWhite, relativeLuminance_of_none _ h]

lemma bgLum_malformed : bgLum malformedOnWhite = 1 := by
  have h : resolvedBg malformedOnWhite = "#FFFFFF" := by
    simp [resolvedBg, malformedOnWhite]
  simp [bgLum, h, relativeLuminance_white]

lemma relativeDiff_of_lum (cfg : StyleConfig) (hf : fgLum cfg = 0)
    (hb : bgLum cfg = 1) : relativeDiff cfg = 1 := by
  have hmax : maxLum cfg = 1 := by
    rw [maxLum, hf, hb]
    norm_num
  rw [relativeDiff, if_neg (by rw [hmax]; norm_num), hmax, lumDiff, hf, hb]
  norm_num

lemma warnings_nil_iff (cfg : StyleConfig) (d w : ℚ) :
    readinessWarnings cfg d w = [] ↔
      (MeetsContrast cfg ∧ ¬ IsInverted cfg ∧
        ¬ (¬ SizeOk d w ∧ 0 < w) ∧ cfg.bgColor ≠ "transparent") := by
  by_cases h1 : MeetsContrast cfg <;> by_cases h2 : IsInverted cfg <;>
    by_cases h3 : ¬ SizeOk d w ∧ 0 < w <;>
    by_cases h4 : cfg.bgColor = "transparent" <;>
    simp [readinessWarnings, h1, h2, h3, h4]

lemma contrast_inverted_not_mem (cfg : StyleConfig) (d w : ℚ)
    (hM : MeetsContrast cfg) (hI : ¬ IsInverted cfg) :
    WarningId.contrast ∉ readinessWarnings cfg d w ∧
    WarningId.inverted ∉ readinessWarnings cfg d w := by
  rw [readinessWarnings, if_neg (not_not_intro hM), if_neg hI]
  constructor <;> (split_ifs <;> simp)

lemma abs_toFixed2_sub (q : ℚ) : |toFixed2 q - q| ≤ 1 / 200 := by
  have h : |q * 100 - ((round (q * 100) : ℤ) : ℚ)| ≤ 1 / 2 :=
    abs_sub_round (q * 100)
  rw [toFixed2]
  have e : ((round (q * 100) : ℤ) : ℚ) / 100 - q =
      -(q * 100 - ((round (q * 100) : ℤ) : ℚ)) / 100 := by ring
  rw [e, abs_div, abs_neg, show |(100 : ℚ)| = 100 by norm_num]
  linarith [h]

lemma tick_not_pending (s : ScanSession) (e : String) (r : Bool)
    (o : DecodeOutcome) (h : s.pending = false) : tick s e r o = s := by
  simp [tick, h]

lemma runFrames_not_pending (s : ScanSession) (e : String)
    (evts : List FrameEvent) (h : s.pending = false) : runFrames s e evts = s := by
  induction evts with
  | nil => rfl
  | cons ev rest ih =>
      rw [runFrames, List.foldl_cons,
        tick_not_pending s e ev.ready ev.outcome h]
      exact ih

lemma tickStatus_none (status : ScanStatus) (e : String) :
    tickStatus status e none = ScanStatus.scanning := by
  by_cases hs : status = ScanStatus.scanning <;> simp [tickStatus, hs]

/-! ### Claim theorems -/

/-- C1: for every style configuration and every nonnegative declared
print width (the card clamps both slider inputs to be nonnegative), the
warning list of the readiness assessment is empty exactly when the
relative luminance difference is at least 40 percent, the foreground
luminance does not exceed the background luminance, the declared print
width is 0 or at least the recommended width for the chosen distance,
and the raw background color is not the transparent sentinel; and the
Ready verdict holds exactly when the warning list is empty. -/
theorem readiness_ready_iff (cfg : StyleConfig) (d w : ℚ) (hw : 0 ≤ w) :
    (readinessWarnings cfg d w = [] ↔
      (0.4 ≤ relativeDiff cfg ∧ fgLum cfg ≤ bgLum cfg ∧
        (w = 0 ∨ recommendedPrintWidthIn d ≤ w) ∧
        cfg.bgColor ≠ "transparent"))
    ∧ (isReady cfg d w ↔ readinessWarnings cfg d w = []) := by
  constructor
  · rw [warnings_nil_iff]
    constructor
    · rintro ⟨h1, h2, h3, h4⟩
      have hS : SizeOk d w := by
        by_cases hz : w = 0
        · exact Or.inr hz
        · have hw0 : 0 < w := lt_of_le_of_ne hw (Ne.symm hz)
          by_contra hnS
          exact h3 ⟨hnS, hw0⟩
      refine ⟨h1, not_lt.mp h2, ?_, h4⟩
      rcases hS with hr | hz
      · exact Or.inr hr
      · exact Or.inl hz
    · rintro ⟨h1, h2, h3, h4⟩
      refine ⟨h1, not_lt.mpr h2, ?_, h4⟩
      rintro ⟨hnS, hw0⟩
      apply hnS
      rcases h3 with hz | hr
      · exact Or.inr hz
      · exact Or.inl hr
  · exact List.length_eq_zero

/-- C1 witness: the default black-on-white style at distance 6 with no
declared width is Ready with an empty warning list. -/
theorem readiness_ready_iff_witness :
    (0 : ℚ) ≤ 0 ∧
    ((readinessWarnings blackOnWhite 6 0 = [] ↔
      (0.4 ≤ relativeDiff blackOnWhite ∧
        fgLum blackOnWhite ≤ bgLum blackOnWhite ∧
        ((0 : ℚ) = 0 ∨ recommendedPrintWidthIn 6 ≤ 0) ∧
        blackOnWhite.bgColor ≠ "transparent"))
    ∧ (isReady blackOnWhite 6 0 ↔ readinessWarnings blackOnWhite 6 0 = [])) :=
  ⟨le_refl 0, readiness_ready_iff blackOnWhite 6 0 (le_refl 0)⟩

/-- C2: when a frame decodes to a payload the next status is success
exactly when the payload equals the expected data trimmed of surrounding
whitespace, and error exactly otherwise; the comparison is plain string
equality. -/
theorem decode_comparison (status : ScanStatus) (expectedData payload : String) :
    (tickStatus status expectedData (some payload) = ScanStatus.success ↔
      payload = expectedData.trim)
    ∧ (tickStatus status expectedData (some payload) = ScanStatus.error ↔
      ¬ payload = expectedData.trim) := by
  by_cases h : payload = expectedData.trim <;> simp [tickStatus, h]

/-- C2 witness: the comparison at a concrete payload and an expected
string carrying surrounding whitespace. -/
theorem decode_comparison_witness :
    (tickStatus ScanStatus.scanning " qr-data " (some "qr-data") =
        ScanStatus.success ↔ "qr-data" = " qr-data ".trim)
    ∧ (tickStatus ScanStatus.scanning " qr-data " (some "qr-data") =
        ScanStatus.error ↔ ¬ "qr-data" = " qr-data ".trim) :=
  decode_comparison ScanStatus.scanning " qr-data " "qr-data"

/-- C3 counterexample: the frame callback has no try-catch around the
decoder call, so on a throwing decode the callback aborts before the
requestAnimationFrame line: no next frame is scheduled and the exception
escapes, refuting the claim that the loop continues with the exception
fully absorbed. -/
theorem decoder_throw_counterexample :
    (tick (openGranted 1) "https://example.com" true
        DecodeOutcome.threw).pending = false ∧
    (tick (openGranted 1) "https://example.com" true
        DecodeOutcome.threw).uncaught = true :=
  ⟨rfl, rfl⟩

/-- C3 amended: if the decoder throws on a ready frame, the exception is
not caught: it escapes the frame callback, the status is left unchanged,
and no next frame is scheduled, so the verification loop halts instead of
continuing. -/
theorem decoder_throw_halts_loop (s : ScanSession) (e : String)
    (h : s.pending = true) :
    (tick s e true DecodeOutcome.threw).pending = false ∧
    (tick s e true DecodeOutcome.threw).uncaught = true ∧
    (tick s e true DecodeOutcome.threw).status = s.status := by
  simp [tick, h]

/-- C3 amended witness: the halt at a concrete running session. -/
theorem decoder_throw_halts_loop_witness :
    (openGranted 1).pending = true ∧
    ((tick (openGranted 1) "x" true DecodeOutcome.threw).pending = false ∧
      (tick (openGranted 1) "x" true DecodeOutcome.threw).uncaught = true ∧
      (tick (openGranted 1) "x" true DecodeOutcome.threw).status =
        (openGranted 1).status) :=
  ⟨rfl, decoder_throw_halts_loop (openGranted 1) "x" rfl⟩

/-- C4: the color parse fails for every string that is neither a 3- nor
a 6-digit hash-prefixed hex code; a 3-digit code parses exactly as its
digit-doubled expansion; and a failed parse is recovered locally as
luminance 0 rather than an exception, so the assessor never crashes. -/
theorem invalid_color_format (s : String) :
    (¬ (isHex3 s = true ∨ isHex6 s = true) → hexToRgb s = none)
    ∧ (isHex3 s = true → hexToRgb s = hexToRgb (expand3 s))
    ∧ (hexToRgb s = none → relativeLuminance s = 0) :=
  ⟨fun h => hexToRgbL_none_of_not_hex s.toList h, hex3_expand s,
    relativeLuminance_of_none s⟩

/-- C4 witness: a malformed string parses to none, and a concrete
3-digit code parses as its doubled expansion. -/
theorem invalid_color_format_witness :
    ¬ (isHex3 "oops" = true ∨ isHex6 "oops" = true) ∧
    hexToRgb "oops" = none ∧
    isHex3 "#1a9" = true ∧
    hexToRgb "#1a9" = hexToRgb (expand3 "#1a9") :=
  ⟨by decide, (invalid_color_format "oops").1 (by decide), by decide,
    (invalid_color_format "#1a9").2.1 (by decide)⟩

/-- C5 counterexample: the noPermission state is not terminal while the
view stays open: the status change from idle to noPermission re-triggers
the camera effect, whose body resets the status to idle, a transition
that leaves noPermission, and a fresh denial merely cycles back to the
same state. -/
theorem no_permission_retry_counterexample :
    EffectReruns ScanStatus.idle openDenied.status ∧
    (openEffectStart openDenied).status = ScanStatus.idle ∧
    (openEffectStart openDenied).status ≠ ScanStatus.noPermission ∧
    settleCamera (openEffectStart openDenied) CameraResult.denied =
      openDenied := by
  refine ⟨by simp [EffectReruns, openDenied], rfl, by decide, rfl⟩

/-- C5 amended: denial sets the status to noPermission with no frame
loop scheduled, but the state is not terminal and the request is retried
automatically: the tick callback depends on the status and the effect on
tick, so the status change re-runs the effect while the view stays open,
resetting the status to idle and issuing a new camera request; sustained
denial cycles back to the identical noPermission state indefinitely, and
a later grant attaches a stream and starts the frame loop. -/
theorem no_permission_auto_retry (n : Nat) :
    openDenied.status = ScanStatus.noPermission ∧
    openDenied.pending = false ∧
    EffectReruns ScanStatus.idle openDenied.status ∧
    (openEffectStart openDenied).status = ScanStatus.idle ∧
    settleCamera (openEffectStart openDenied) CameraResult.denied =
      openDenied ∧
    (settleCamera (openEffectStart openDenied)
        (CameraResult.granted (n + 1))).tracks = n + 1 ∧
    (settleCamera (openEffectStart openDenied)
        (CameraResult.granted (n + 1))).pending = true :=
  ⟨rfl, rfl, by simp [EffectReruns, openDenied], rfl, rfl, rfl, rfl⟩

/-- C5 amended witness: the retry cycle at a concrete single-track
grant. -/
theorem no_permission_auto_retry_witness :
    openDenied.status = ScanStatus.noPermission ∧
    openDenied.pending = false ∧
    EffectReruns ScanStatus.idle openDenied.status ∧
    (openEffectStart openDenied).status = ScanStatus.idle ∧
    settleCamera (openEffectStart openDenied) CameraResult.denied =
      openDenied ∧
    (settleCamera (openEffectStart openDenied)
        (CameraResult.granted 1)).tracks = 1 ∧
    (settleCamera (openEffectStart openDenied)
        (CameraResult.granted 1)).pending = true :=
  no_permission_auto_retry 0

/-- C6 counterexample: closing the view while the camera request is
still in flight does not leave zero live tracks: the promise callback
has no open-view guard, so a late grant attaches the stream after close
and schedules the frame loop, and a subsequent ready frame records a
further decode attempt. -/
theorem close_pending_stream_counterexample :
    (closeSession openPending).tracks = 0 ∧
    (settleCamera (closeSession openPending)
        (CameraResult.granted 1)).tracks = 1 ∧
    (settleCamera (closeSession openPending)
        (CameraResult.granted 1)).pending = true ∧
    (tick (settleCamera (closeSession openPending) (CameraResult.granted 1))
        "x" true DecodeOutcome.noCode).attempts =
      openPending.attempts + 1 :=
  ⟨rfl, rfl, rfl, rfl⟩

/-- C6 amended: the synchronous close paths, explicit close, teardown
and re-open alike, stop every attached track and cancel the pending
frame, and afterwards frame events are no-ops; but close does not cover
an in-flight camera acquisition: a getUserMedia promise that settles
with a grant after close attaches its stream unguarded, leaving live
tracks and a scheduled frame, and a ready frame then records a further
decode attempt; after unmount the same late stream is simply dropped
with its tracks never stopped. -/
theorem close_releases_unless_pending_acquisition (s : ScanSession)
    (e : String) (evts : List FrameEvent) (n : Nat) :
    (closeSession s).tracks = 0 ∧
    (closeSession s).pending = false ∧
    runFrames (closeSession s) e evts = closeSession s ∧
    (settleCamera (closeSession s)
        (CameraResult.granted (n + 1))).tracks = n + 1 ∧
    (settleCamera (closeSession s)
        (CameraResult.granted (n + 1))).pending = true ∧
    (tick (settleCamera (closeSession s) (CameraResult.granted (n + 1)))
        e true DecodeOutcome.noCode).attempts = s.attempts + 1 := by
  refine ⟨rfl, rfl, runFrames_not_pending _ _ _ rfl, rfl, rfl, ?_⟩
  simp [tick, settleCamera, closeSession]

/-- C6 amended witness: closing a live scanning session whose camera
promise settles late with a single-track grant. -/
theorem close_releases_unless_pending_acquisition_witness :
    (closeSession sampleSuccessSession).tracks = 0 ∧
    (closeSession sampleSuccessSession).pending = false ∧
    runFrames (closeSession sampleSuccessSession) "x"
        [⟨true, DecodeOutcome.found "y"⟩] =
      closeSession sampleSuccessSession ∧
    (settleCamera (closeSession sampleSuccessSession)
        (CameraResult.granted 1)).tracks = 1 ∧
    (settleCamera (closeSession sampleSuccessSession)
        (CameraResult.granted 1)).pending = true ∧
    (tick (settleCamera (closeSession sampleSuccessSession)
        (CameraResult.granted 1)) "x" true DecodeOutcome.noCode).attempts =
      sampleSuccessSession.attempts + 1 :=
  close_releases_unless_pending_acquisition sampleSuccessSession "x"
    [⟨true, DecodeOutcome.found "y"⟩] 0

/-- C7: the recommended print width is the distance times 12 over 10 and
the maximum distance is the width over 12 times 10, each rounded to two
decimal places, and the two are mutual inverses up to that rounding:
composing them moves any nonnegative distance by at most 1 over 100. -/
theorem size_heuristic_inverse (d w : ℚ) (_hd : 0 ≤ d) (_hw : 0 ≤ w) :
    recommendedPrintWidthIn d = toFixed2 (d * 12 / 10) ∧
    maxDistanceFt w = toFixed2 (w / 12 * 10) ∧
    |maxDistanceFt (recommendedPrintWidthIn d) - d| ≤ 1 / 100 := by
  refine ⟨rfl, rfl, ?_⟩
  have h1 : |recommendedPrintWidthIn d - d * 12 / 10| ≤ 1 / 200 :=
    abs_toFixed2_sub (d * 12 / 10)
  have h2 : |toFixed2 (recommendedPrintWidthIn d / 12 * 10) -
      recommendedPrintWidthIn d / 12 * 10| ≤ 1 / 200 :=
    abs_toFixed2_sub _
  rw [maxDistanceFt]
  have e : recommendedPrintWidthIn d / 12 * 10 - d =
      (recommendedPrintWidthIn d - d * 12 / 10) * (5 / 6) := by ring
  have h3 : |recommendedPrintWidthIn d / 12 * 10 - d| ≤ 1 / 240 := by
    rw [e, abs_mul, show |(5 / 6 : ℚ)| = 5 / 6 by norm_num]
    linarith [h1]
  calc |toFixed2 (recommendedPrintWidthIn d / 12 * 10) - d|
      ≤ |toFixed2 (recommendedPrintWidthIn d / 12 * 10) -
          recommendedPrintWidthIn d / 12 * 10| +
        |recommendedPrintWidthIn d / 12 * 10 - d| := abs_sub_le _ _ _
    _ ≤ 1 / 200 + 1 / 240 := add_le_add h2 h3
    _ ≤ 1 / 100 := by norm_num

/-- C7 witness: the heuristic at distance 6 feet and width 3 inches. -/
theorem size_heuristic_inverse_witness :
    (0 : ℚ) ≤ 6 ∧ (0 : ℚ) ≤ 3 ∧
    (recommendedPrintWidthIn 6 = toFixed2 (6 * 12 / 10) ∧
      maxDistanceFt 3 = toFixed2 (3 / 12 * 10) ∧
      |maxDistanceFt (recommendedPrintWidthIn 6) - 6| ≤ 1 / 100) :=
  ⟨by norm_num, by norm_num, size_heuristic_inverse 6 3 (by norm_num) (by norm_num)⟩

/-- C8: for black foreground over white background the rounded contrast
ratio of the metrics is exactly 21, and neither the contrast nor the
inverted warning is produced at any distance and width pair. -/
theorem black_on_white_max_contrast (d w : ℚ) :
    metricsContrastRatio blackOnWhite = 21 ∧
    WarningId.contrast ∉ readinessWarnings blackOnWhite d w ∧
    WarningId.inverted ∉ readinessWarnings blackOnWhite d w := by
  have hM : MeetsContrast blackOnWhite := by
    show (0.4 : ℝ) ≤ relativeDiff blackOnWhite
    rw [relativeDiff_of_lum blackOnWhite fgLum_bw bgLum_bw]
    norm_num
  have hI : ¬ IsInverted blackOnWhite := by
    show ¬ bgLum blackOnWhite < fgLum blackOnWhite
    rw [fgLum_bw, bgLum_bw]
    norm_num
  have hmem := contrast_inverted_not_mem blackOnWhite d w hM hI
  refine ⟨?_, hmem.1, hmem.2⟩
  rw [metricsContrastRatio, fgLum_bw, bgLum_bw, contrastRatio,
    if_neg (by norm_num), show ((1 : ℝ) + 0.05) / (0 + 0.05) = 21 by norm_num,
    toFixed2R, show (21 : ℝ) * 100 = ((2100 : ℤ) : ℝ) by norm_num,
    round_intCast]
  norm_num

/-- C8 witness: the claim at distance 6 and width 3. -/
theorem black_on_white_max_contrast_witness :
    metricsContrastRatio blackOnWhite = 21 ∧
    WarningId.contrast ∉ readinessWarnings blackOnWhite 6 3 ∧
    WarningId.inverted ∉ readinessWarnings blackOnWhite 6 3 :=
  black_on_white_max_contrast 6 3

/-- C9: a processed frame with no detectable code sets the status to
scanning whatever the previous status was; a prior success or error
result is not retained. -/
theorem no_detection_reverts_to_scanning (s : ScanSession) (e : String)
    (h : s.pending = true) :
    (tick s e true DecodeOutcome.noCode).status = ScanStatus.scanning := by
  simp [tick, h, tickStatus_none]

/-- C9 witness: a session frozen on success reverts to scanning on a
frame with no detection. -/
theorem no_detection_reverts_to_scanning_witness :
    sampleSuccessSession.pending = true ∧
    (tick sampleSuccessSession "https://example.com" true
        DecodeOutcome.noCode).status = ScanStatus.scanning :=
  ⟨rfl, no_detection_reverts_to_scanning sampleSuccessSession
    "https://example.com" rfl⟩

/-- C10: relativeLuminance is total: every string that fails the hex
parse is scored as luminance 0, exactly as if it were pure black; in
particular a malformed foreground over a white background reports a 100
percent relative difference and produces no contrast warning. -/
theorem malformed_color_scored_black :
    (∀ s : String, hexToRgb s = none → relativeLuminance s = 0) ∧
    contrastPercent malformedOnWhite = 100 ∧
    ∀ d w : ℚ, WarningId.contrast ∉ readinessWarnings malformedOnWhite d w := by
  have hrd : relativeDiff malformedOnWhite = 1 :=
    relativeDiff_of_lum malformedOnWhite fgLum_malformed bgLum_malformed
  refine ⟨relativeLuminance_of_none, ?_, ?_⟩
  · rw [contrastPercent, hrd,
      show (1 : ℝ) * 100 = ((100 : ℤ) : ℝ) by norm_num, round_intCast]
  · intro d w
    have hM : MeetsContrast malformedOnWhite := by
      show (0.4 : ℝ) ≤ relativeDiff malformedOnWhite
      rw [hrd]
      norm_num
    have hI : ¬ IsInverted malformedOnWhite := by
      show ¬ bgLum malformedOnWhite < fgLum malformedOnWhite
      rw [fgLum_malformed, bgLum_malformed]
      norm_num
    exact (contrast_inverted_not_mem malformedOnWhite d w hM hI).1

/-- C10 witness: the malformed sample string is scored as luminance 0. -/
theorem malformed_color_scored_black_witness :
    hexToRgb "oops" = none ∧ relativeLuminance "oops" = 0 :=
  ⟨by decide, malformed_color_scored_black.1 "oops" (by decide)⟩

end QRStudio
